import Mathlib

/-!
Verification development for `ship/tuflow/tuflowmodelfile.py`: a shallow
embedding of the `TuflowModelFile` container (ordered entry sequence plus
scenario blocks) and of its operations (`getPrintableContents`,
`getScenarioVariables`, `getContentsByScenario`, `addContent`,
`getEntryByHash`, `testExists`, `getFiles`), together with theorems
settling the specification claims about them.
-/

set_option autoImplicit false

/-- Entry tags. Modelled from the spec: the `FILEPART_TYPES` constants
(`ft.MODEL`, `ft.COMMENT`, ...) live in `ship/tuflow/__init__.py`, which is
not part of the provided source; only their pairwise distinctness is used
by the code under study.  `SCENARIO_TAG` stands for `ft.SCENARIO`. -/
inductive LineType where
| MODEL
| RESULT
| GIS
| DATA
| VARIABLE
| UNKNOWN_FILE
| UNKNOWN
| COMMENT
| SCENARIO_TAG
| SCENARIO_END
deriving DecidableEq, Repr

/-- Modelled from the spec: the externally owned `TuflowFilePart` /
`TuflowFile` objects (in `ship/tuflow/tuflowfilepart.py`, not part of the
provided source) are opaque; the spec lists the capabilities this container
consumes: stable identifier (`hex_hash`), category tag, renderable text
(`getPrintableContents()`, stored here as `printable`), optional linked-next
identifier (`child_hash`), extension, command and comment fields, and path
resolution (`getAbsolutePath()` stored as `absPath`,
`getFileNameAndExtension()` stored as `fileNameAndExtension`).
`isTuflowFile` records whether the object is an instance of the `TuflowFile`
subclass (the `isinstance(..., TuflowFile)` checks in the code). -/
structure FilePart where
  hex_hash : String
  category : String
  isTuflowFile : Bool
  child_hash : Option String
  printable : String
  extension : String
  command : String
  comment : String
  absPath : String
  fileNameAndExtension : String
deriving DecidableEq, Repr

/-- Payload of one entry of `TuflowModelFile.contents`.  A `comment` payload
is the verbatim comment text; a `part` payload is a reference to an external
file-part object; a `scenarioRef` payload models what the loader stores for
`SCENARIO`/`SCENARIO_END` marker entries.  Modelled from the spec: the
loader is not part of the provided source; marker entries reference a
scenario block, and scenario blocks expose a `hex_hash`. -/
inductive Payload where
| comment (text : String)
| part (p : FilePart)
| scenarioRef (hex : String)
deriving DecidableEq, Repr

/-- One branch of an if/else scenario group: the class `TuflowScenario` of
`tuflowmodelfile.py` (named `ScenarioBlock` in the spec's data model). -/
structure ScenarioBlock where
  order : Nat
  if_type : Nat
  hex_hash : String
  values : List String
  part_list : List (Nat × String)
  comment : String
  comment_char : String
  has_endif : Bool
deriving DecidableEq, Repr

/-- `TuflowScenario.IF` (= `range(4)[0]`). -/
def ScenarioBlock.IF : Nat := 0

/-- `TuflowScenario.ELSE` (= `range(4)[1]`). -/
def ScenarioBlock.ELSE : Nat := 1

/-- `TuflowScenario.TUFLOW_PART` (= `range(4)[2]`). -/
def ScenarioBlock.TUFLOW_PART : Nat := 2

/-- `TuflowScenario.SCENARIO_PART` (= `range(4)[3]`). -/
def ScenarioBlock.SCENARIO_PART : Nat := 3

/-- `TuflowScenario.getTuflowFilePartRefs`: the hash codes of the
`TUFLOW_PART` references of `part_list`, in order. -/
def ScenarioBlock.getTuflowFilePartRefs (s : ScenarioBlock) : List String :=
  s.part_list.foldl
    (fun refs p => if p.1 = ScenarioBlock.TUFLOW_PART then refs ++ [p.2] else refs) []

/-- `TuflowScenario.getOpeningStatement`.  Python reads `self.values[0]`,
which raises `IndexError` on an empty list; failure is modelled with
`Except.error`. -/
def ScenarioBlock.getOpeningStatement (s : ScenarioBlock) : Except String String :=
  match s.values with
  | [] => Except.error "IndexError"
  | v0 :: _ =>
    if v0 = "ELSE" then Except.ok "ELSE"
    else if s.if_type = ScenarioBlock.IF then
      Except.ok ("IF SCENARIO == " ++ String.intercalate " | " s.values)
    else
      Except.ok ("ELSE IF SCENARIO == " ++ String.intercalate " | " s.values)

/-- `TuflowScenario.getClosingStatement`. -/
def ScenarioBlock.getClosingStatement (s : ScenarioBlock) : String :=
  if s.has_endif then "END IF" else ""

/-- The `TuflowModelFile` container: category string (`self.TYPE`), own and
parent hash codes, the ordered entry list `self.contents` and the scenario
block list `self.scenarios`. -/
structure TuflowModelFile where
  TYPE : String
  hex_hash : String
  parent_hash : String
  contents : List (LineType × Payload)
  scenarios : List ScenarioBlock
deriving DecidableEq, Repr

/-- `TuflowModelFile.addContent`: append one `[line_type, filepart]` pair. -/
def addContent (m : TuflowModelFile) (line_type : LineType) (filepart : Payload) :
    TuflowModelFile :=
  { m with contents := m.contents ++ [(line_type, filepart)] }

/-- Stable insertion of a scenario block into a list already sorted by
`order` (earlier blocks stay in front of later blocks of equal `order`). -/
def insertByOrder (s : ScenarioBlock) : List ScenarioBlock → List ScenarioBlock
| [] => [s]
| t :: ts => if s.order ≤ t.order then s :: t :: ts else t :: insertByOrder s ts

/-- Modelled from the spec: `getPrintableContents` evaluates
`sorted(self.scenarios)`; the spec states the render queue holds the
scenario blocks "sorted by `ordinal` (dequeue order = declaration order)",
so the Python sort is modelled as a stable sort on the `order` field. -/
def sortScenarios : List ScenarioBlock → List ScenarioBlock
| [] => []
| s :: ss => insertByOrder s (sortScenarios ss)

/-- The indent string `''.join([' '] * indent_spacing)`; a non-positive
count yields the empty string, as in Python. -/
def mkIndent (n : Int) : String :=
  String.mk (List.replicate n.toNat ' ')

/-- The `while has_children` loop of the inner function
`getPrintableFilepart`: starting from part `f` (already rendered into
`out_line`), while the current part has a `child_hash`, fetch the payload of
the next entry (`self.contents[i + child_count][1]`), append its rendered
text to `out_line` and its index to `skip_lines`; when a part with no
`child_hash` is reached, emit the single combined line.  `rest` is the list
of entries after the current position and `idx` is the absolute index of its
first element.  Reading past the end raises `IndexError`; calling
`getPrintableContents()` on a non-part payload raises `AttributeError`. -/
def chainFollow (indent : String) :
    List (LineType × Payload) → FilePart → Nat → List String → List Nat →
    Except String (String × List Nat)
| [], f, _, out_line, skips =>
  if f.child_hash = none then
    Except.ok (indent ++ String.intercalate " | " out_line ++ "\n", skips)
  else Except.error "IndexError"
| e :: rest2, f, idx, out_line, skips =>
  if f.child_hash = none then
    Except.ok (indent ++ String.intercalate " | " out_line ++ "\n", skips)
  else
    match e.2 with
    | Payload.part f2 =>
      chainFollow indent rest2 f2 (idx + 1) (out_line ++ [f2.printable]) (skips ++ [idx])
    | _ => Except.error "AttributeError"

/-- The inner function `getPrintableFilepart` of
`TuflowModelFile.getPrintableContents`: a `TuflowFile` with a `child_hash`
starts a piped chain; any other part is emitted on its own line. -/
def getPrintableFilepart (f : FilePart) (indent : String) (i : Nat)
    (rest : List (LineType × Payload)) (skips : List Nat) :
    Except String (String × List Nat) :=
  if f.isTuflowFile = true ∧ f.child_hash ≠ none then
    chainFollow indent rest f (i + 1) [f.printable] skips
  else
    Except.ok (indent ++ f.printable ++ "\n", skips)

/-- State of the `for i, entry in enumerate(self.contents)` walk of
`getPrintableContents`: the accumulated `output`, the `skip_lines` index
list, the `scen_stack` of open scenario blocks (head = top; `uf.LoadStack`
is modelled from the spec as a plain stack: `add` pushes, `peek` reads the
most recent element, `pop` removes it), the `indent_spacing` counter, the
current `indent` string, and the `scenarios` queue (head = next to pop). -/
structure RenderState where
  output : List String
  skips : List Nat
  stack : List ScenarioBlock
  indent_spacing : Int
  indent : String
  queue : List ScenarioBlock
deriving Repr

/-- The main loop of `TuflowModelFile.getPrintableContents`, walking the
entries from index `i`.  Failure cases mirror Python: `''.join` over a
non-text payload raises `TypeError`; `scenarios.pop(0)` on an empty queue
and `scen_stack.peek()` on an empty stack raise `IndexError`; attribute
access (`f.category`) on a non-part payload raises `AttributeError`. -/
def renderLoop (auto : Bool) :
    List (LineType × Payload) → Nat → RenderState → Except String (List String)
| [], _, st => Except.ok st.output
| (lt, pl) :: rest, i, st =>
  if i ∈ st.skips then renderLoop auto rest (i + 1) st
  else if lt = LineType.COMMENT then
    match pl with
    | Payload.comment s =>
      renderLoop auto rest (i + 1) { st with output := st.output ++ [s] }
    | _ => Except.error "TypeError"
  else if lt = LineType.SCENARIO_TAG then
    match st.queue with
    | [] => Except.error "IndexError"
    | s :: q =>
      match ScenarioBlock.getOpeningStatement s with
      | Except.error e => Except.error e
      | Except.ok op =>
        renderLoop auto rest (i + 1)
          { output := st.output ++ [st.indent ++ op]
            skips := st.skips
            stack := s :: st.stack
            indent_spacing := st.indent_spacing + 4
            indent := mkIndent (st.indent_spacing + 4)
            queue := q }
  else if lt = LineType.SCENARIO_END then
    match st.stack with
    | [] => Except.error "IndexError"
    | s :: stk =>
      renderLoop auto rest (i + 1)
        { output := st.output ++
            [mkIndent (st.indent_spacing - 4) ++ ScenarioBlock.getClosingStatement s]
          skips := st.skips
          stack := stk
          indent_spacing := st.indent_spacing - 4
          indent := mkIndent (st.indent_spacing - 4)
          queue := st.queue }
  else
    match pl with
    | Payload.part f =>
      if f.category = "ecf" then
        if auto then
          renderLoop auto rest (i + 1)
            { st with output := st.output ++
                [st.indent ++ String.intercalate " " [f.command, "Auto !", f.comment]] }
        else
          renderLoop auto rest (i + 1) st
      else
        match getPrintableFilepart f st.indent i rest st.skips with
        | Except.error e => Except.error e
        | Except.ok (line, sk) =>
          renderLoop auto rest (i + 1) { st with output := st.output ++ [line], skips := sk }
    | _ => Except.error "AttributeError"

/-- `TuflowModelFile.getPrintableContents(has_estry_auto)`. -/
def getPrintableContents (m : TuflowModelFile) (has_estry_auto : Bool) :
    Except String (List String) :=
  renderLoop has_estry_auto m.contents 0
    { output := []
      skips := []
      stack := []
      indent_spacing := 0
      indent := ""
      queue := sortScenarios m.scenarios }

/-- `TuflowModelFile.getScenarioVariables`: every value of every scenario
block, appended on first sight, skipping the `'ELSE'` sentinel. -/
def getScenarioVariables (m : TuflowModelFile) : List String :=
  m.scenarios.foldl
    (fun vals s =>
      s.values.foldl
        (fun vs v => if ¬ v ∈ vs ∧ ¬ v = "ELSE" then vs ++ [v] else vs) vals)
    []

/-- `TuflowModelFile.getContentsByScenario(scenario_vals)` (the argument
name is appended to the Lean name to keep it distinct from the scenario
type).  First the hash codes of file parts referenced by scenario blocks
with a matching value are collected; then the `TuflowFilePart`-bearing
entries whose hash is collected are returned in entry order. -/
def getContentsByScenarioVals (m : TuflowModelFile) (scenario_vals : List String) :
    List FilePart :=
  let hashes := m.scenarios.foldl
    (fun hs s =>
      s.values.foldl
        (fun hs2 v =>
          if v ∈ scenario_vals then hs2 ++ ScenarioBlock.getTuflowFilePartRefs s else hs2)
        hs)
    []
  m.contents.foldl
    (fun fps c =>
      match c.2 with
      | Payload.part p => if p.hex_hash ∈ hashes then fps ++ [p] else fps
      | _ => fps)
    []

/-- The identifier exposed by a payload: Python evaluates `c[1].hex_hash`;
comment payloads (plain strings) have no such attribute. -/
def payloadHexHash : Payload → Option String
| Payload.comment _ => none
| Payload.part p => some p.hex_hash
| Payload.scenarioRef h => some h

/-- The scan loop of `TuflowModelFile.getEntryByHash`: entries tagged
`UNKNOWN` or `COMMENT` are skipped; the first remaining entry whose payload
identifier equals the argument is returned; reaching the end raises
`KeyError` (modelled with the error message of the `raise`). -/
def getEntryByHashGo (hex_hash : String) :
    List (LineType × Payload) → Except String Payload
| [] => Except.error ("No entry found with hex_hash: " ++ hex_hash)
| c :: cs =>
  if c.1 = LineType.UNKNOWN ∨ c.1 = LineType.COMMENT then getEntryByHashGo hex_hash cs
  else
    match payloadHexHash c.2 with
    | none => Except.error "AttributeError"
    | some h => if h = hex_hash then Except.ok c.2 else getEntryByHashGo hex_hash cs

/-- `TuflowModelFile.getEntryByHash(hex_hash)`. -/
def getEntryByHash (m : TuflowModelFile) (hex_hash : String) : Except String Payload :=
  getEntryByHashGo hex_hash m.contents

/-- `TuflowModelFile.testExists`, with the filesystem abstracted: `osExists`
is the `os.path.exists` oracle and `normpath` the `os.path.normpath`
function. For every `TuflowFile`-bearing entry not tagged `RESULT` whose
absolute path the oracle rejects, a `(file name, normalized path)` pair is
collected, in entry order. -/
def testExists (m : TuflowModelFile) (osExists : String → Bool)
    (normpath : String → String) : List (String × String) :=
  m.contents.foldl
    (fun failed c =>
      match c.2 with
      | Payload.part f =>
        if f.isTuflowFile = true then
          if c.1 = LineType.RESULT then failed
          else if osExists f.absPath then failed
          else failed ++ [(f.fileNameAndExtension, normpath f.absPath)]
        else failed
      | _ => failed)
    []

/-- `TuflowModelFile.getFiles(file_type, extensions, include_results)`,
with the `if/elif/else` filter chain translated branch for branch. -/
def getFiles (m : TuflowModelFile) (file_type : Option LineType)
    (extensions : List String) (include_results : Bool) : List FilePart :=
  m.contents.foldl
    (fun out c =>
      match c.2 with
      | Payload.part f =>
        if f.isTuflowFile = true then
          if ¬ file_type = none ∧ ¬ some c.1 = file_type then out
          else if ¬ include_results = true ∧ c.1 = LineType.RESULT then out
          else if ¬ extensions = [] ∧ ¬ f.extension ∈ extensions then out
          else out ++ [f]
        else out
      | _ => out)
    []

deriving instance DecidableEq for Except

/-! ### Step lemmas for the render loop -/

theorem renderLoop_nil (auto : Bool) (i : Nat) (st : RenderState) :
    renderLoop auto [] i st = Except.ok st.output := rfl

theorem renderLoop_skip (auto : Bool) (e : LineType × Payload)
    (rest : List (LineType × Payload)) (i : Nat) (st : RenderState)
    (h : i ∈ st.skips) :
    renderLoop auto (e :: rest) i st = renderLoop auto rest (i + 1) st := by
  cases e with
  | mk lt pl => simp only [renderLoop, if_pos h]

theorem renderLoop_comment (auto : Bool) (s : String)
    (rest : List (LineType × Payload)) (i : Nat) (st : RenderState)
    (h : ¬ i ∈ st.skips) :
    renderLoop auto ((LineType.COMMENT, Payload.comment s) :: rest) i st
      = renderLoop auto rest (i + 1) { st with output := st.output ++ [s] } := by
  simp [renderLoop, if_neg h]

theorem renderLoop_scen (auto : Bool) (pl : Payload)
    (rest : List (LineType × Payload)) (i : Nat) (st : RenderState)
    (s : ScenarioBlock) (q : List ScenarioBlock) (op : String)
    (h : ¬ i ∈ st.skips) (hq : st.queue = s :: q)
    (hop : ScenarioBlock.getOpeningStatement s = Except.ok op) :
    renderLoop auto ((LineType.SCENARIO_TAG, pl) :: rest) i st
      = renderLoop auto rest (i + 1)
          { output := st.output ++ [st.indent ++ op]
            skips := st.skips
            stack := s :: st.stack
            indent_spacing := st.indent_spacing + 4
            indent := mkIndent (st.indent_spacing + 4)
            queue := q } := by
  simp [renderLoop, if_neg h, hq, hop]

theorem renderLoop_scenEnd (auto : Bool) (pl : Payload)
    (rest : List (LineType × Payload)) (i : Nat) (st : RenderState)
    (s : ScenarioBlock) (stk : List ScenarioBlock)
    (h : ¬ i ∈ st.skips) (hstk : st.stack = s :: stk) :
    renderLoop auto ((LineType.SCENARIO_END, pl) :: rest) i st
      = renderLoop auto rest (i + 1)
          { output := st.output ++
              [mkIndent (st.indent_spacing - 4) ++ ScenarioBlock.getClosingStatement s]
            skips := st.skips
            stack := stk
            indent_spacing := st.indent_spacing - 4
            indent := mkIndent (st.indent_spacing - 4)
            queue := st.queue } := by
  simp [renderLoop, if_neg h, hstk]

theorem renderLoop_ecf (auto : Bool) (lt : LineType) (f : FilePart)
    (rest : List (LineType × Payload)) (i : Nat) (st : RenderState)
    (h : ¬ i ∈ st.skips) (h1 : ¬ lt = LineType.COMMENT)
    (h2 : ¬ lt = LineType.SCENARIO_TAG) (h3 : ¬ lt = LineType.SCENARIO_END)
    (hcat : f.category = "ecf") :
    renderLoop auto ((lt, Payload.part f) :: rest) i st
      = renderLoop auto rest (i + 1)
          (if auto then
            { st with output := st.output ++
                [st.indent ++ String.intercalate " " [f.command, "Auto !", f.comment]] }
           else st) := by
  cases auto <;> simp [renderLoop, if_neg h, if_neg h1, if_neg h2, if_neg h3, hcat]

theorem renderLoop_plain (auto : Bool) (lt : LineType) (f : FilePart)
    (rest : List (LineType × Payload)) (i : Nat) (st : RenderState)
    (h : ¬ i ∈ st.skips) (h1 : ¬ lt = LineType.COMMENT)
    (h2 : ¬ lt = LineType.SCENARIO_TAG) (h3 : ¬ lt = LineType.SCENARIO_END)
    (hcat : ¬ f.category = "ecf")
    (hplain : ¬ (f.isTuflowFile = true ∧ ¬ f.child_hash = none)) :
    renderLoop auto ((lt, Payload.part f) :: rest) i st
      = renderLoop auto rest (i + 1)
          { st with output := st.output ++ [st.indent ++ f.printable ++ "\n"] } := by
  simp only [renderLoop, if_neg h, if_neg h1, if_neg h2, if_neg h3, if_neg hcat]
  rw [getPrintableFilepart, if_neg]
  exact hplain

/-! ### Runs of entries -/

/-- A run of plain file-part entries (no chain, not `ecf`) emits one line
per part, at the current indent, in order. -/
theorem renderLoop_parts_run (auto : Bool) (A : List FilePart)
    (rest : List (LineType × Payload)) (i : Nat) (st : RenderState)
    (hA : ∀ f ∈ A, ¬ f.category = "ecf" ∧ ¬ (f.isTuflowFile = true ∧ ¬ f.child_hash = none))
    (hsk : ∀ j ∈ st.skips, j < i) :
    renderLoop auto (A.map (fun f => (LineType.GIS, Payload.part f)) ++ rest) i st
      = renderLoop auto rest (i + A.length)
          { st with output := st.output ++ A.map (fun f => st.indent ++ f.printable ++ "\n") } := by
  induction A generalizing i st with
  | nil => simp
  | cons f A ih =>
    have hni : ¬ i ∈ st.skips := fun hm => absurd (hsk i hm) (lt_irrefl i)
    rw [List.map_cons, List.cons_append,
      renderLoop_plain auto LineType.GIS f _ i st hni (by decide) (by decide) (by decide)
        (hA f (List.mem_cons_self f A)).1 (hA f (List.mem_cons_self f A)).2,
      ih (i + 1) { st with output := st.output ++ [st.indent ++ f.printable ++ "\n"] }
        (fun g hg => hA g (List.mem_cons_of_mem f hg))
        (fun j hj => Nat.lt_succ_of_lt (hsk j hj))]
    have hidx : i + 1 + A.length = i + (f :: A).length := by
      simp [List.length_cons]; omega
    rw [hidx]
    simp [List.append_assoc]

/-- A run of comment entries emits each stored text verbatim, in order. -/
theorem renderLoop_comments_run (auto : Bool) (texts : List String)
    (rest : List (LineType × Payload)) (i : Nat) (st : RenderState)
    (hsk : ∀ j ∈ st.skips, j < i) :
    renderLoop auto (texts.map (fun t => (LineType.COMMENT, Payload.comment t)) ++ rest) i st
      = renderLoop auto rest (i + texts.length) { st with output := st.output ++ texts } := by
  induction texts generalizing i st with
  | nil => simp
  | cons t texts ih =>
    have hni : ¬ i ∈ st.skips := fun hm => absurd (hsk i hm) (lt_irrefl i)
    rw [List.map_cons, List.cons_append, renderLoop_comment auto t _ i st hni,
      ih (i + 1) { st with output := st.output ++ [t] }
        (fun j hj => Nat.lt_succ_of_lt (hsk j hj))]
    have hidx : i + 1 + texts.length = i + (t :: texts).length := by
      simp [List.length_cons]; omega
    rw [hidx]
    simp [List.append_assoc]

/-- Entries whose indices were all recorded in `skip_lines` are passed over
without effect. -/
theorem renderLoop_skip_run (auto : Bool) (es rest : List (LineType × Payload))
    (i : Nat) (st : RenderState) (h : ∀ k, k < es.length → (i + k) ∈ st.skips) :
    renderLoop auto (es ++ rest) i st = renderLoop auto rest (i + es.length) st := by
  induction es generalizing i with
  | nil => simp
  | cons e es ih =>
    have h0 : i ∈ st.skips := by simpa using h 0 (Nat.succ_pos _)
    rw [List.cons_append, renderLoop_skip auto e _ i st h0,
      ih (i + 1) (fun k hk => by
        have := h (k + 1) (by simpa using Nat.succ_lt_succ hk)
        simpa [Nat.add_assoc, Nat.add_comm 1 k] using this)]
    have hidx : i + 1 + es.length = i + (e :: es).length := by
      simp [List.length_cons]; omega
    rw [hidx]

/-- Reaching a part with no `child_hash` ends the chain and emits the
combined line, whatever entries follow. -/
theorem chainFollow_stop (indent : String) (rest : List (LineType × Payload))
    (f : FilePart) (idx : Nat) (out_line : List String) (skips : List Nat)
    (hf : f.child_hash = none) :
    chainFollow indent rest f idx out_line skips
      = Except.ok (indent ++ String.intercalate " | " out_line ++ "\n", skips) := by
  cases rest <;> simp [chainFollow, hf]

/-- A part with a `child_hash` consumes the next entry's part into the
chain. -/
theorem chainFollow_step (indent : String) (lt : LineType) (f g : FilePart)
    (rest : List (LineType × Payload)) (idx : Nat) (out_line : List String)
    (skips : List Nat) (hf : ¬ f.child_hash = none) :
    chainFollow indent ((lt, Payload.part g) :: rest) f idx out_line skips
      = chainFollow indent rest g (idx + 1) (out_line ++ [g.printable]) (skips ++ [idx]) := by
  simp [chainFollow, if_neg hf]

/-- Shape of the continuation list of a piped chain, as the render engine
consumes it: every continuation but the last carries a further link, the
last one carries none, and the list is non-empty. -/
def chainShape : List FilePart → Bool
| [] => false
| [f] => f.child_hash.isNone
| f :: g :: rest => f.child_hash.isSome && chainShape (g :: rest)

/-- Following a chain across a well-shaped continuation run collects every
member's rendered text into one line and records the consumed indices. -/
theorem chainFollow_run (indent : String) (conts : List FilePart)
    (rest : List (LineType × Payload)) (f : FilePart) (idx : Nat)
    (out_line : List String) (skips : List Nat)
    (hf : ¬ f.child_hash = none) (hc : chainShape conts = true) :
    chainFollow indent (conts.map (fun g => (LineType.GIS, Payload.part g)) ++ rest)
        f idx out_line skips
      = Except.ok
          (indent ++ String.intercalate " | " (out_line ++ conts.map FilePart.printable) ++ "\n",
           skips ++ List.range' idx conts.length) := by
  induction conts generalizing f idx out_line skips with
  | nil => simp [chainShape] at hc
  | cons g conts ih =>
    rw [List.map_cons, List.cons_append,
      chainFollow_step indent LineType.GIS f g _ idx out_line skips hf]
    cases conts with
    | nil =>
      have hg : g.child_hash = none := by
        simpa [chainShape, Option.isNone_iff_eq_none] using hc
      rw [chainFollow_stop indent _ g _ _ _ hg]
      simp [List.range']
    | cons g2 t =>
      have hc2 : chainShape (g2 :: t) = true := by
        have h2 := hc
        simp [chainShape, Bool.and_eq_true] at h2
        exact h2.2
      have hgsome : ¬ g.child_hash = none := by
        have h2 := hc
        simp [chainShape, Bool.and_eq_true, Option.isSome_iff_exists] at h2
        obtain ⟨⟨x, hx⟩, -⟩ := h2
        simp [hx]
      rw [ih g (idx + 1) (out_line ++ [g.printable]) (skips ++ [idx]) hgsome hc2]
      have hlen : (g :: g2 :: t).length = (g2 :: t).length + 1 := rfl
      rw [hlen, List.range'_succ]
      simp [List.append_assoc]

/-- A non-`ecf` file-part entry contributes the line computed by
`getPrintableFilepart` and updates `skip_lines` accordingly. -/
theorem renderLoop_filepart (auto : Bool) (lt : LineType) (f : FilePart)
    (rest : List (LineType × Payload)) (i : Nat) (st : RenderState)
    (line : String) (sk : List Nat)
    (h : ¬ i ∈ st.skips) (h1 : ¬ lt = LineType.COMMENT)
    (h2 : ¬ lt = LineType.SCENARIO_TAG) (h3 : ¬ lt = LineType.SCENARIO_END)
    (hcat : ¬ f.category = "ecf")
    (hres : getPrintableFilepart f st.indent i rest st.skips = Except.ok (line, sk)) :
    renderLoop auto ((lt, Payload.part f) :: rest) i st
      = renderLoop auto rest (i + 1) { st with output := st.output ++ [line], skips := sk } := by
  simp only [renderLoop, if_neg h, if_neg h1, if_neg h2, if_neg h3, if_neg hcat, hres]

/-! ### C2: piped chain of three entries -/

/-- C2 (amended with the auto-companion proviso): in a model whose entries
are three consecutive file parts `A`, `B`, `C`, where `A` links to `B`, `B`
links to `C` and `C` has no link, and `A` is not of the auto-companion
(`ecf`) category, `getPrintableContents` emits exactly the single combined
line `A | B | C`, and `B` and `C` contribute no standalone line. -/
theorem C2_theorem (A B C : FilePart) (auto : Bool)
    (hAt : A.isTuflowFile = true) (hBt : B.isTuflowFile = true)
    (hCt : C.isTuflowFile = true)
    (hAc : A.child_hash = some B.hex_hash) (hBc : B.child_hash = some C.hex_hash)
    (hCc : C.child_hash = none) (hcat : ¬ A.category = "ecf") :
    getPrintableContents
      { TYPE := "tcf", hex_hash := "mf", parent_hash := "pf"
        contents := [(LineType.GIS, Payload.part A), (LineType.GIS, Payload.part B),
          (LineType.GIS, Payload.part C)]
        scenarios := [] } auto
      = Except.ok [A.printable ++ " | " ++ B.printable ++ " | " ++ C.printable ++ "\n"] := by
  have hch : getPrintableFilepart A "" 0
      [(LineType.GIS, Payload.part B), (LineType.GIS, Payload.part C)] []
      = Except.ok
          ("" ++ String.intercalate " | " ([A.printable] ++ [B, C].map FilePart.printable) ++ "\n",
           [] ++ List.range' 1 2) := by
    rw [getPrintableFilepart, if_pos ⟨hAt, by simp [hAc]⟩]
    have h2 := chainFollow_run "" [B, C] [] A 1 [A.printable] []
      (by simp [hAc]) (by simp [chainShape, hBc, hCc])
    simpa using h2
  unfold getPrintableContents
  rw [renderLoop_filepart auto LineType.GIS A _ 0 _ _ _ (by simp) (by decide) (by decide)
    (by decide) hcat hch]
  simp [renderLoop, List.range', String.intercalate, String.intercalate.go,
    String.append_assoc]

/-- C2 witness: the amended theorem applied at a concrete chained model. -/
theorem C2_witness :
    getPrintableContents
      { TYPE := "tcf", hex_hash := "mf", parent_hash := "pf"
        contents :=
          [(LineType.GIS, Payload.part
              { hex_hash := "hA", category := "gis", isTuflowFile := true,
                child_hash := some "hB", printable := "A", extension := "shp",
                command := "Read GIS", comment := "", absPath := "/a",
                fileNameAndExtension := "a.shp" }),
           (LineType.GIS, Payload.part
              { hex_hash := "hB", category := "gis", isTuflowFile := true,
                child_hash := some "hC", printable := "B", extension := "shp",
                command := "Read GIS", comment := "", absPath := "/b",
                fileNameAndExtension := "b.shp" }),
           (LineType.GIS, Payload.part
              { hex_hash := "hC", category := "gis", isTuflowFile := true,
                child_hash := none, printable := "C", extension := "shp",
                command := "Read GIS", comment := "", absPath := "/c",
                fileNameAndExtension := "c.shp" })]
        scenarios := [] } false
      = Except.ok ["A" ++ " | " ++ "B" ++ " | " ++ "C" ++ "\n"] :=
  C2_theorem
    { hex_hash := "hA", category := "gis", isTuflowFile := true,
      child_hash := some "hB", printable := "A", extension := "shp",
      command := "Read GIS", comment := "", absPath := "/a",
      fileNameAndExtension := "a.shp" }
    { hex_hash := "hB", category := "gis", isTuflowFile := true,
      child_hash := some "hC", printable := "B", extension := "shp",
      command := "Read GIS", comment := "", absPath := "/b",
      fileNameAndExtension := "b.shp" }
    { hex_hash := "hC", category := "gis", isTuflowFile := true,
      child_hash := none, printable := "C", extension := "shp",
      command := "Read GIS", comment := "", absPath := "/c",
      fileNameAndExtension := "c.shp" }
    false rfl rfl rfl rfl rfl rfl (by decide)

/-- C2 counterexample: with the same chain layout but a head entry of the
auto-companion category (`ecf`), the combined `A | B | C` line is not
emitted (here, with the auto toggle off, the head vanishes and the chain
restarts at `B`), refuting the claim as stated. -/
theorem C2_counterexample :
    getPrintableContents
      { TYPE := "tcf", hex_hash := "mf", parent_hash := "pf"
        contents :=
          [(LineType.GIS, Payload.part
              { hex_hash := "hA", category := "ecf", isTuflowFile := true,
                child_hash := some "hB", printable := "A", extension := "ecf",
                command := "Estry Control File", comment := "c", absPath := "/a",
                fileNameAndExtension := "a.ecf" }),
           (LineType.GIS, Payload.part
              { hex_hash := "hB", category := "gis", isTuflowFile := true,
                child_hash := some "hC", printable := "B", extension := "shp",
                command := "Read GIS", comment := "", absPath := "/b",
                fileNameAndExtension := "b.shp" }),
           (LineType.GIS, Payload.part
              { hex_hash := "hC", category := "gis", isTuflowFile := true,
                child_hash := none, printable := "C", extension := "shp",
                command := "Read GIS", comment := "", absPath := "/c",
                fileNameAndExtension := "c.shp" })]
        scenarios := [] } false
      = Except.ok ["B | C\n"]
    ∧ ¬ (["B | C\n"] : List String) = ["A | B | C\n"] := by
  constructor
  · rfl
  · decide

/-! ### C4: auto-companion (ecf) entries -/

/-- C4 (amended): an entry whose part has the auto-companion category
`ecf` is rendered as the synthesized `<command> Auto ! <comment>` line when
the auto toggle is on, and produces no output line at all when the toggle
is off (the normal rendering path is not taken for `ecf` entries). -/
theorem C4_theorem (f : FilePart) (hcat : f.category = "ecf") :
    getPrintableContents
      { TYPE := "tcf", hex_hash := "mf", parent_hash := "pf"
        contents := [(LineType.MODEL, Payload.part f)], scenarios := [] } true
      = Except.ok [f.command ++ " Auto ! " ++ f.comment]
    ∧ getPrintableContents
      { TYPE := "tcf", hex_hash := "mf", parent_hash := "pf"
        contents := [(LineType.MODEL, Payload.part f)], scenarios := [] } false
      = Except.ok [] := by
  constructor
  · unfold getPrintableContents
    rw [renderLoop_ecf true LineType.MODEL f [] 0 _ (by simp) (by decide) (by decide)
      (by decide) hcat]
    simp [renderLoop_nil, String.intercalate, String.intercalate.go, String.append_assoc]
  · unfold getPrintableContents
    rw [renderLoop_ecf false LineType.MODEL f [] 0 _ (by simp) (by decide) (by decide)
      (by decide) hcat]
    rfl

/-- C4 witness: the amended theorem applied at a concrete `ecf` entry. -/
theorem C4_witness :
    getPrintableContents
      { TYPE := "tcf", hex_hash := "mf", parent_hash := "pf"
        contents := [(LineType.MODEL, Payload.part
          { hex_hash := "hE", category := "ecf", isTuflowFile := true,
            child_hash := none, printable := "E", extension := "ecf",
            command := "Estry Control File", comment := "a comment", absPath := "/e",
            fileNameAndExtension := "e.ecf" })], scenarios := [] } true
      = Except.ok ["Estry Control File" ++ " Auto ! " ++ "a comment"]
    ∧ getPrintableContents
      { TYPE := "tcf", hex_hash := "mf", parent_hash := "pf"
        contents := [(LineType.MODEL, Payload.part
          { hex_hash := "hE", category := "ecf", isTuflowFile := true,
            child_hash := none, printable := "E", extension := "ecf",
            command := "Estry Control File", comment := "a comment", absPath := "/e",
            fileNameAndExtension := "e.ecf" })], scenarios := [] } false
      = Except.ok [] :=
  C4_theorem
    { hex_hash := "hE", category := "ecf", isTuflowFile := true,
      child_hash := none, printable := "E", extension := "ecf",
      command := "Estry Control File", comment := "a comment", absPath := "/e",
      fileNameAndExtension := "e.ecf" } rfl

/-- C4 counterexample: with the auto toggle disabled, an `ecf` entry emits
nothing at all — not, as the claim states, its normal rendered line. -/
theorem C4_counterexample :
    getPrintableContents
      { TYPE := "tcf", hex_hash := "mf", parent_hash := "pf"
        contents := [(LineType.MODEL, Payload.part
          { hex_hash := "hE", category := "ecf", isTuflowFile := true,
            child_hash := none, printable := "E", extension := "ecf",
            command := "Estry Control File", comment := "a comment", absPath := "/e",
            fileNameAndExtension := "e.ecf" })], scenarios := [] } false
      = Except.ok []
    ∧ ¬ ([] : List String) = ["E\n"] := by
  constructor
  · rfl
  · decide

/-! ### C10: comment-only round trip -/

/-- Folding comment-only `addContent` calls appends the comment entries. -/
theorem addContent_comments_fold (texts : List String) (m0 : TuflowModelFile) :
    texts.foldl (fun m t => addContent m LineType.COMMENT (Payload.comment t)) m0
      = { m0 with contents := m0.contents ++
            texts.map (fun t => (LineType.COMMENT, Payload.comment t)) } := by
  induction texts generalizing m0 with
  | nil => simp
  | cons t texts ih =>
    rw [List.foldl_cons, ih]
    simp [addContent, List.append_assoc]

/-- C10: a model built purely from Comment-tagged `addContent` calls renders
back to exactly the original texts, one output item per comment, in order,
for either value of the auto toggle. -/
theorem C10_theorem (texts : List String) (auto : Bool) :
    getPrintableContents
      (texts.foldl (fun m t => addContent m LineType.COMMENT (Payload.comment t))
        { TYPE := "tcf", hex_hash := "mf", parent_hash := "pf"
          contents := [], scenarios := [] }) auto
      = Except.ok texts := by
  rw [addContent_comments_fold]
  unfold getPrintableContents
  have h := renderLoop_comments_run auto texts [] 0
    { output := [], skips := [], stack := [], indent_spacing := 0, indent := "",
      queue := sortScenarios [] } (by simp)
  simpa using h

/-! ### C1: scenario group rendering -/

/-- The `If(values=["1"])` block of the C1 scenario group. -/
def ifBlockC1 : ScenarioBlock :=
  { order := 0, if_type := ScenarioBlock.IF, hex_hash := "s1", values := ["1"],
    part_list := [], comment := "", comment_char := "!", has_endif := false }

/-- The `Else(hasClosingMarker=true)` block of the C1 scenario group. -/
def elseBlockC1 : ScenarioBlock :=
  { order := 1, if_type := ScenarioBlock.ELSE, hex_hash := "s2", values := ["ELSE"],
    part_list := [], comment := "", comment_char := "!", has_endif := true }

/-- C1 (amended): for the entry sequence Scenario(If), If-branch parts,
Scenario(Else), Else-branch parts, single ScenarioEnd — with blocks dequeued
in ascending ordinal order and the indent counter stepped by 4 after each
opening and before the closing — the emitted lines are `IF SCENARIO == 1`
at the outer indent, the If branch at 4 spaces, `ELSE` at 4 spaces (one
level in: no ScenarioEnd closes the If block before the Else marker), the
Else branch at 8 spaces, and `END IF` at 4 spaces. -/
theorem C1_theorem (A B : List FilePart) (auto : Bool)
    (hA : ∀ f ∈ A, ¬ f.category = "ecf" ∧ ¬ (f.isTuflowFile = true ∧ ¬ f.child_hash = none))
    (hB : ∀ f ∈ B, ¬ f.category = "ecf" ∧ ¬ (f.isTuflowFile = true ∧ ¬ f.child_hash = none)) :
    getPrintableContents
      { TYPE := "tcf", hex_hash := "mf", parent_hash := "pf"
        contents := (LineType.SCENARIO_TAG, Payload.scenarioRef "s1") ::
          (A.map (fun f => (LineType.GIS, Payload.part f)) ++
            ((LineType.SCENARIO_TAG, Payload.scenarioRef "s2") ::
              (B.map (fun f => (LineType.GIS, Payload.part f)) ++
                [(LineType.SCENARIO_END, Payload.scenarioRef "s2")])))
        scenarios := [ifBlockC1, elseBlockC1] } auto
      = Except.ok (["IF SCENARIO == 1"]
          ++ A.map (fun f => "    " ++ f.printable ++ "\n")
          ++ ["    ELSE"]
          ++ B.map (fun f => "        " ++ f.printable ++ "\n")
          ++ ["    END IF"]) := by
  have step0 :
      renderLoop auto
        ((LineType.SCENARIO_TAG, Payload.scenarioRef "s1") ::
          (A.map (fun f => (LineType.GIS, Payload.part f)) ++
            ((LineType.SCENARIO_TAG, Payload.scenarioRef "s2") ::
              (B.map (fun f => (LineType.GIS, Payload.part f)) ++
                [(LineType.SCENARIO_END, Payload.scenarioRef "s2")])))) 0
        { output := [], skips := [], stack := [], indent_spacing := 0, indent := "",
          queue := [ifBlockC1, elseBlockC1] }
      = renderLoop auto
          (A.map (fun f => (LineType.GIS, Payload.part f)) ++
            ((LineType.SCENARIO_TAG, Payload.scenarioRef "s2") ::
              (B.map (fun f => (LineType.GIS, Payload.part f)) ++
                [(LineType.SCENARIO_END, Payload.scenarioRef "s2")]))) 1
          { output := ["IF SCENARIO == 1"], skips := [], stack := [ifBlockC1],
            indent_spacing := 4, indent := "    ", queue := [elseBlockC1] } :=
    renderLoop_scen auto (Payload.scenarioRef "s1") _ 0 _ ifBlockC1 [elseBlockC1]
      "IF SCENARIO == 1" (by simp) rfl rfl
  have step1 :
      renderLoop auto
        (A.map (fun f => (LineType.GIS, Payload.part f)) ++
          ((LineType.SCENARIO_TAG, Payload.scenarioRef "s2") ::
            (B.map (fun f => (LineType.GIS, Payload.part f)) ++
              [(LineType.SCENARIO_END, Payload.scenarioRef "s2")]))) 1
        { output := ["IF SCENARIO == 1"], skips := [], stack := [ifBlockC1],
          indent_spacing := 4, indent := "    ", queue := [elseBlockC1] }
      = renderLoop auto
          ((LineType.SCENARIO_TAG, Payload.scenarioRef "s2") ::
            (B.map (fun f => (LineType.GIS, Payload.part f)) ++
              [(LineType.SCENARIO_END, Payload.scenarioRef "s2")])) (1 + A.length)
          { output := ["IF SCENARIO == 1"] ++ A.map (fun f => "    " ++ f.printable ++ "\n"),
            skips := [], stack := [ifBlockC1],
            indent_spacing := 4, indent := "    ", queue := [elseBlockC1] } :=
    renderLoop_parts_run auto A _ 1 _ hA (by simp)
  have step2 :
      renderLoop auto
        ((LineType.SCENARIO_TAG, Payload.scenarioRef "s2") ::
          (B.map (fun f => (LineType.GIS, Payload.part f)) ++
            [(LineType.SCENARIO_END, Payload.scenarioRef "s2")])) (1 + A.length)
        { output := ["IF SCENARIO == 1"] ++ A.map (fun f => "    " ++ f.printable ++ "\n"),
          skips := [], stack := [ifBlockC1],
          indent_spacing := 4, indent := "    ", queue := [elseBlockC1] }
      = renderLoop auto
          (B.map (fun f => (LineType.GIS, Payload.part f)) ++
            [(LineType.SCENARIO_END, Payload.scenarioRef "s2")]) (1 + A.length + 1)
          { output := (["IF SCENARIO == 1"] ++ A.map (fun f => "    " ++ f.printable ++ "\n"))
              ++ ["    ELSE"],
            skips := [], stack := [elseBlockC1, ifBlockC1],
            indent_spacing := 8, indent := "        ", queue := [] } :=
    renderLoop_scen auto (Payload.scenarioRef "s2") _ (1 + A.length) _ elseBlockC1 []
      "ELSE" (by simp) rfl rfl
  have step3 :
      renderLoop auto
        (B.map (fun f => (LineType.GIS, Payload.part f)) ++
          [(LineType.SCENARIO_END, Payload.scenarioRef "s2")]) (1 + A.length + 1)
        { output := (["IF SCENARIO == 1"] ++ A.map (fun f => "    " ++ f.printable ++ "\n"))
            ++ ["    ELSE"],
          skips := [], stack := [elseBlockC1, ifBlockC1],
          indent_spacing := 8, indent := "        ", queue := [] }
      = renderLoop auto
          [(LineType.SCENARIO_END, Payload.scenarioRef "s2")] (1 + A.length + 1 + B.length)
          { output := ((["IF SCENARIO == 1"] ++ A.map (fun f => "    " ++ f.printable ++ "\n"))
              ++ ["    ELSE"]) ++ B.map (fun f => "        " ++ f.printable ++ "\n"),
            skips := [], stack := [elseBlockC1, ifBlockC1],
            indent_spacing := 8, indent := "        ", queue := [] } :=
    renderLoop_parts_run auto B _ (1 + A.length + 1) _ hB (by simp)
  have step4 :
      renderLoop auto
        [(LineType.SCENARIO_END, Payload.scenarioRef "s2")] (1 + A.length + 1 + B.length)
        { output := ((["IF SCENARIO == 1"] ++ A.map (fun f => "    " ++ f.printable ++ "\n"))
            ++ ["    ELSE"]) ++ B.map (fun f => "        " ++ f.printable ++ "\n"),
          skips := [], stack := [elseBlockC1, ifBlockC1],
          indent_spacing := 8, indent := "        ", queue := [] }
      = renderLoop auto [] (1 + A.length + 1 + B.length + 1)
          { output := (((["IF SCENARIO == 1"] ++ A.map (fun f => "    " ++ f.printable ++ "\n"))
              ++ ["    ELSE"]) ++ B.map (fun f => "        " ++ f.printable ++ "\n"))
              ++ ["    END IF"],
            skips := [], stack := [ifBlockC1],
            indent_spacing := 4, indent := "    ", queue := [] } :=
    renderLoop_scenEnd auto (Payload.scenarioRef "s2") [] (1 + A.length + 1 + B.length) _
      elseBlockC1 [ifBlockC1] (by simp) rfl
  have e := ((step0.trans step1).trans ((step2.trans step3).trans step4)).trans
    (renderLoop_nil auto (1 + A.length + 1 + B.length + 1) _)
  exact e.trans (by simp [List.append_assoc])

/-- C1 witness: the amended theorem applied with one concrete part in each
branch. -/
theorem C1_witness :
    getPrintableContents
      { TYPE := "tcf", hex_hash := "mf", parent_hash := "pf"
        contents :=
          [(LineType.SCENARIO_TAG, Payload.scenarioRef "s1"),
           (LineType.GIS, Payload.part
             { hex_hash := "h1", category := "gis", isTuflowFile := true,
               child_hash := none, printable := "P1", extension := "shp",
               command := "Read GIS", comment := "", absPath := "/p1",
               fileNameAndExtension := "p1.shp" }),
           (LineType.SCENARIO_TAG, Payload.scenarioRef "s2"),
           (LineType.GIS, Payload.part
             { hex_hash := "h2", category := "gis", isTuflowFile := true,
               child_hash := none, printable := "P2", extension := "shp",
               command := "Read GIS", comment := "", absPath := "/p2",
               fileNameAndExtension := "p2.shp" }),
           (LineType.SCENARIO_END, Payload.scenarioRef "s2")]
        scenarios := [ifBlockC1, elseBlockC1] } false
      = Except.ok ["IF SCENARIO == 1", "    P1\n", "    ELSE", "        P2\n", "    END IF"] :=
  C1_theorem
    [{ hex_hash := "h1", category := "gis", isTuflowFile := true,
       child_hash := none, printable := "P1", extension := "shp",
       command := "Read GIS", comment := "", absPath := "/p1",
       fileNameAndExtension := "p1.shp" }]
    [{ hex_hash := "h2", category := "gis", isTuflowFile := true,
       child_hash := none, printable := "P2", extension := "shp",
       command := "Read GIS", comment := "", absPath := "/p2",
       fileNameAndExtension := "p2.shp" }]
    false (by decide) (by decide)

/-- C1 counterexample: at the same concrete scenario-group model, the lines
claimed by the specification (`ELSE`, the Else branch at one level, and
`END IF` at the outer indent) are not what is emitted: the `ELSE` opening
comes out indented one level in, the Else branch two levels in, and
`END IF` one level in. -/
theorem C1_counterexample :
    getPrintableContents
      { TYPE := "tcf", hex_hash := "mf", parent_hash := "pf"
        contents :=
          [(LineType.SCENARIO_TAG, Payload.scenarioRef "s1"),
           (LineType.GIS, Payload.part
             { hex_hash := "h1", category := "gis", isTuflowFile := true,
               child_hash := none, printable := "P1", extension := "shp",
               command := "Read GIS", comment := "", absPath := "/p1",
               fileNameAndExtension := "p1.shp" }),
           (LineType.SCENARIO_TAG, Payload.scenarioRef "s2"),
           (LineType.GIS, Payload.part
             { hex_hash := "h2", category := "gis", isTuflowFile := true,
               child_hash := none, printable := "P2", extension := "shp",
               command := "Read GIS", comment := "", absPath := "/p2",
               fileNameAndExtension := "p2.shp" }),
           (LineType.SCENARIO_END, Payload.scenarioRef "s2")]
        scenarios := [ifBlockC1, elseBlockC1] } false
      = Except.ok ["IF SCENARIO == 1", "    P1\n", "    ELSE", "        P2\n", "    END IF"]
    ∧ ¬ (["IF SCENARIO == 1", "    P1\n", "    ELSE", "        P2\n", "    END IF"] : List String)
        = ["IF SCENARIO == 1", "    P1\n", "ELSE", "    P2\n", "END IF"] := by
  constructor
  · rfl
  · decide

/-! ### C5: scenario-filtered contents -/

/-- Membership in the inner per-scenario hash collection loop of
`getContentsByScenario`. -/
theorem mem_collect_inner (sel refs : List String) (vals : List String) :
    ∀ (init : List String) (x : String),
      x ∈ vals.foldl (fun hs2 v => if v ∈ sel then hs2 ++ refs else hs2) init
        ↔ x ∈ init ∨ ((∃ v, v ∈ vals ∧ v ∈ sel) ∧ x ∈ refs) := by
  induction vals with
  | nil => intro init x; simp
  | cons v vs ih =>
    intro init x
    rw [List.foldl_cons]
    by_cases hv : v ∈ sel
    · rw [if_pos hv, ih]
      simp only [List.mem_append, List.mem_cons]
      constructor
      · rintro ((h | h) | ⟨⟨w, hw1, hw2⟩, hx⟩)
        · exact Or.inl h
        · exact Or.inr ⟨⟨v, Or.inl rfl, hv⟩, h⟩
        · exact Or.inr ⟨⟨w, Or.inr hw1, hw2⟩, hx⟩
      · rintro (h | ⟨⟨w, (hw1 | hw1), hw2⟩, hx⟩)
        · exact Or.inl (Or.inl h)
        · exact Or.inl (Or.inr hx)
        · exact Or.inr ⟨⟨w, hw1, hw2⟩, hx⟩
    · rw [if_neg hv, ih]
      simp only [List.mem_cons]
      constructor
      · rintro (h | ⟨⟨w, hw1, hw2⟩, hx⟩)
        · exact Or.inl h
        · exact Or.inr ⟨⟨w, Or.inr hw1, hw2⟩, hx⟩
      · rintro (h | ⟨⟨w, (hw1 | hw1), hw2⟩, hx⟩)
        · exact Or.inl h
        · exact absurd (hw1 ▸ hw2) hv
        · exact Or.inr ⟨⟨w, hw1, hw2⟩, hx⟩

/-- Membership in the hash collection of `getContentsByScenario`: a hash is
collected exactly when some scenario block has a selected value and lists
the hash among its file-part references. -/
theorem mem_collect (sel : List String) (scens : List ScenarioBlock) :
    ∀ (init : List String) (x : String),
      x ∈ scens.foldl
          (fun hs s => s.values.foldl
            (fun hs2 v =>
              if v ∈ sel then hs2 ++ ScenarioBlock.getTuflowFilePartRefs s else hs2) hs)
          init
        ↔ x ∈ init ∨ ∃ s, s ∈ scens ∧ (∃ v, v ∈ s.values ∧ v ∈ sel) ∧
            x ∈ ScenarioBlock.getTuflowFilePartRefs s := by
  induction scens with
  | nil => intro init x; simp
  | cons s ss ih =>
    intro init x
    rw [List.foldl_cons, ih,
      mem_collect_inner sel (ScenarioBlock.getTuflowFilePartRefs s) s.values]
    simp only [List.mem_cons]
    constructor
    · rintro ((h | h) | ⟨t, ht, hsel, hx⟩)
      · exact Or.inl h
      · exact Or.inr ⟨s, Or.inl rfl, h.1, h.2⟩
      · exact Or.inr ⟨t, Or.inr ht, hsel, hx⟩
    · rintro (h | ⟨t, (ht | ht), hsel, hx⟩)
      · exact Or.inl (Or.inl h)
      · exact Or.inl (Or.inr (ht ▸ ⟨hsel, hx⟩))
      · exact Or.inr ⟨t, ht, hsel, hx⟩

/-- The filtering pass of `getContentsByScenario`, as a `filterMap`. -/
theorem contents_filter_fold (hashes : List String) (cs : List (LineType × Payload)) :
    ∀ (init : List FilePart),
      cs.foldl (fun fps c =>
          match c.2 with
          | Payload.part p => if p.hex_hash ∈ hashes then fps ++ [p] else fps
          | _ => fps) init
        = init ++ cs.filterMap (fun c =>
            match c.2 with
            | Payload.part p => if p.hex_hash ∈ hashes then some p else none
            | _ => none) := by
  induction cs with
  | nil => intro init; simp
  | cons c cs ih =>
    intro init
    rw [List.foldl_cons, List.filterMap_cons]
    match hc : c.2 with
    | Payload.comment t => simp [hc, ih]
    | Payload.scenarioRef h => simp [hc, ih]
    | Payload.part p =>
      by_cases hp : p.hex_hash ∈ hashes
      · simp [hc, hp, ih, List.append_assoc]
      · simp [hc, hp, ih]

/-- Pointwise congruence for `filterMap`. -/
theorem filterMap_congr_on {α β : Type} {f g : α → Option β} :
    ∀ (l : List α), (∀ a ∈ l, f a = g a) → l.filterMap f = l.filterMap g := by
  intro l
  induction l with
  | nil => intro _; rfl
  | cons a l ih =>
    intro h
    rw [List.filterMap_cons, List.filterMap_cons, h a (List.mem_cons_self a l),
      ih (fun b hb => h b (List.mem_cons_of_mem a hb))]

/-- C5: `getContentsByScenario(selected)` returns, in original entry order,
exactly the file-part-bearing entries whose identifier is referenced by some
scenario block whose values intersect the selected list. -/
theorem C5_theorem (m : TuflowModelFile) (sel : List String) :
    getContentsByScenarioVals m sel
      = m.contents.filterMap (fun c =>
          match c.2 with
          | Payload.part p =>
            if ∃ s, s ∈ m.scenarios ∧ (∃ v, v ∈ s.values ∧ v ∈ sel) ∧
                p.hex_hash ∈ ScenarioBlock.getTuflowFilePartRefs s
            then some p else none
          | _ => none) := by
  unfold getContentsByScenarioVals
  rw [contents_filter_fold]
  rw [List.nil_append]
  apply filterMap_congr_on
  intro c _
  match hc : c.2 with
  | Payload.comment t => rfl
  | Payload.scenarioRef h => rfl
  | Payload.part p =>
    apply if_congr _ rfl rfl
    exact (mem_collect sel m.scenarios [] p.hex_hash).trans (by simp)

/-! ### C6: scenario variables -/

/-- First-seen deduplication: append each element the first time it is
seen. -/
def firstSeen (l : List String) : List String :=
  l.foldl (fun acc v => if ¬ v ∈ acc then acc ++ [v] else acc) []

/-- The values of all scenario blocks, in declaration and list order. -/
def allScenarioValues : List ScenarioBlock → List String
| [] => []
| s :: ss => s.values ++ allScenarioValues ss

/-- The nested scenario/values fold equals the fold over the flattened
value list. -/
theorem nested_vals_fold (g : List String → String → List String)
    (scens : List ScenarioBlock) :
    ∀ (acc : List String),
      scens.foldl (fun vals s => s.values.foldl g vals) acc
        = (allScenarioValues scens).foldl g acc := by
  induction scens with
  | nil => intro acc; rfl
  | cons s ss ih => intro acc; simp [allScenarioValues, List.foldl_append, ih]

/-- Folding with the combined not-seen/not-ELSE test equals first-seen
folding over the list with `"ELSE"` filtered out. -/
theorem fold_vals_filter (l : List String) :
    ∀ (acc : List String),
      l.foldl (fun vs v => if ¬ v ∈ vs ∧ ¬ v = "ELSE" then vs ++ [v] else vs) acc
        = (l.filter (fun v => decide (¬ v = "ELSE"))).foldl
            (fun vs v => if ¬ v ∈ vs then vs ++ [v] else vs) acc := by
  induction l with
  | nil => intro acc; rfl
  | cons v vs ih =>
    intro acc
    by_cases hv : v = "ELSE"
    · simp [hv, ih]
    · by_cases hm : v ∈ acc <;> simp [hv, hm, ih]

/-- The first-seen fold preserves duplicate-freedom. -/
theorem firstSeen_fold_nodup (l : List String) :
    ∀ (acc : List String), acc.Nodup →
      (l.foldl (fun vs v => if ¬ v ∈ vs then vs ++ [v] else vs) acc).Nodup := by
  induction l with
  | nil => intro acc h; exact h
  | cons v vs ih =>
    intro acc h
    by_cases hm : v ∈ acc
    · simpa [hm] using ih acc h
    · have : (acc ++ [v]).Nodup := by
        simp [List.nodup_append, h, hm]
      simpa [hm] using ih (acc ++ [v]) this

/-- Membership in the first-seen fold. -/
theorem mem_firstSeen_fold (l : List String) :
    ∀ (acc : List String) (x : String),
      x ∈ l.foldl (fun vs v => if ¬ v ∈ vs then vs ++ [v] else vs) acc
        ↔ x ∈ acc ∨ x ∈ l := by
  induction l with
  | nil => intro acc x; simp
  | cons v vs ih =>
    intro acc x
    by_cases hm : v ∈ acc
    · rw [List.foldl_cons, if_neg (by simpa using hm), ih]
      simp only [List.mem_cons]
      aesop
    · rw [List.foldl_cons, if_pos (by simpa using hm), ih]
      simp only [List.mem_append, List.mem_cons]
      aesop

/-- Membership in the flattened scenario values. -/
theorem mem_allScenarioValues (scens : List ScenarioBlock) (v : String) :
    v ∈ allScenarioValues scens ↔ ∃ s, s ∈ scens ∧ v ∈ s.values := by
  induction scens with
  | nil => simp [allScenarioValues]
  | cons s ss ih =>
    simp only [allScenarioValues, List.mem_append, ih, List.mem_cons]
    constructor
    · rintro (h | ⟨t, ht, hv⟩)
      · exact ⟨s, Or.inl rfl, h⟩
      · exact ⟨t, Or.inr ht, hv⟩
    · rintro ⟨t, (ht | ht), hv⟩
      · exact Or.inl (ht ▸ hv)
      · exact Or.inr ⟨t, ht, hv⟩

/-- C6: `getScenarioVariables` returns the distinct scenario values in
first-seen order: it equals the first-seen deduplication of the flattened
value lists with the `"ELSE"` sentinel removed, is duplicate-free, and
contains a value exactly when some block lists it and it is not `"ELSE"`. -/
theorem C6_theorem (m : TuflowModelFile) :
    getScenarioVariables m
      = firstSeen ((allScenarioValues m.scenarios).filter (fun v => decide (¬ v = "ELSE")))
    ∧ (getScenarioVariables m).Nodup
    ∧ ∀ v, v ∈ getScenarioVariables m
        ↔ (¬ v = "ELSE" ∧ ∃ s, s ∈ m.scenarios ∧ v ∈ s.values) := by
  have hrw : getScenarioVariables m
      = firstSeen ((allScenarioValues m.scenarios).filter (fun v => decide (¬ v = "ELSE"))) := by
    unfold getScenarioVariables firstSeen
    rw [nested_vals_fold, fold_vals_filter]
  refine ⟨hrw, ?_, ?_⟩
  · rw [hrw]
    exact firstSeen_fold_nodup _ [] List.nodup_nil
  · intro v
    rw [hrw]
    unfold firstSeen
    rw [mem_firstSeen_fold]
    simp only [List.mem_filter, List.not_mem_nil, false_or, decide_eq_true_eq,
      mem_allScenarioValues]
    constructor
    · rintro ⟨h1, h2⟩
      exact ⟨h2, h1⟩
    · rintro ⟨h1, h2⟩
      exact ⟨h2, h1⟩

/-! ### C7: lookup by hash -/

/-- The scan loop of `getEntryByHash` as a `find?` over the non-skipped
entries, on lists whose scanned payloads all expose an identifier. -/
theorem getEntryByHashGo_find (hh : String) :
    ∀ (cs : List (LineType × Payload)),
      (∀ c ∈ cs,
        ¬ (c.1 = LineType.UNKNOWN ∨ c.1 = LineType.COMMENT) → ¬ payloadHexHash c.2 = none) →
      getEntryByHashGo hh cs
        = match (cs.filter (fun c =>
              !decide (c.1 = LineType.UNKNOWN ∨ c.1 = LineType.COMMENT))).find?
              (fun c => decide (payloadHexHash c.2 = some hh)) with
          | some c => Except.ok c.2
          | none => Except.error ("No entry found with hex_hash: " ++ hh) := by
  intro cs
  induction cs with
  | nil => intro _; rfl
  | cons c cs ih =>
    intro hwf
    have ihcs := ih (fun d hd => hwf d (List.mem_cons_of_mem c hd))
    by_cases hskip : c.1 = LineType.UNKNOWN ∨ c.1 = LineType.COMMENT
    · rw [List.filter_cons_of_neg (by simp [decide_eq_true hskip])]
      simp only [getEntryByHashGo, if_pos hskip]
      exact ihcs
    · rw [List.filter_cons_of_pos (by simp [decide_eq_false hskip])]
      have hsome := hwf c (List.mem_cons_self c cs) hskip
      match hph : payloadHexHash c.2 with
      | none => exact absurd hph hsome
      | some h =>
        simp only [getEntryByHashGo, if_neg hskip, hph]
        by_cases hEq : h = hh
        · rw [if_pos hEq, List.find?_cons_of_pos _ (by simp [hph, hEq])]
        · rw [if_neg hEq, List.find?_cons_of_neg _ (by simp [hph, hEq]), ihcs]

/-- C7: `getEntryByHash` scans only the entries not tagged `COMMENT` or
`UNKNOWN`; on a model in which every scanned payload exposes an identifier
it returns the exact stored payload of the first scanned entry whose
identifier matches, and it fails (with the `KeyError` message) exactly when
none matches. -/
theorem C7_theorem (m : TuflowModelFile) (hh : String)
    (hwf : ∀ c ∈ m.contents,
      ¬ (c.1 = LineType.UNKNOWN ∨ c.1 = LineType.COMMENT) → ¬ payloadHexHash c.2 = none) :
    getEntryByHash m hh
      = match (m.contents.filter (fun c =>
            !decide (c.1 = LineType.UNKNOWN ∨ c.1 = LineType.COMMENT))).find?
            (fun c => decide (payloadHexHash c.2 = some hh)) with
        | some c => Except.ok c.2
        | none => Except.error ("No entry found with hex_hash: " ++ hh) :=
  getEntryByHashGo_find hh m.contents hwf

/-- C7 witness: the theorem applied at a concrete model holding a comment,
a scenario marker and two file parts; the looked-up identifier is the
second part's, and the first part and the marker are passed over. -/
theorem C7_witness :
    getEntryByHash
      { TYPE := "tcf", hex_hash := "mf", parent_hash := "pf"
        contents :=
          [(LineType.COMMENT, Payload.comment "! a comment"),
           (LineType.SCENARIO_TAG, Payload.scenarioRef "s1"),
           (LineType.GIS, Payload.part
             { hex_hash := "h1", category := "gis", isTuflowFile := true,
               child_hash := none, printable := "P1", extension := "shp",
               command := "Read GIS", comment := "", absPath := "/p1",
               fileNameAndExtension := "p1.shp" }),
           (LineType.MODEL, Payload.part
             { hex_hash := "h2", category := "tgc", isTuflowFile := true,
               child_hash := none, printable := "P2", extension := "tgc",
               command := "Geometry Control File", comment := "", absPath := "/p2",
               fileNameAndExtension := "p2.tgc" })]
        scenarios := [] } "h2"
      = Except.ok (Payload.part
          { hex_hash := "h2", category := "tgc", isTuflowFile := true,
            child_hash := none, printable := "P2", extension := "tgc",
            command := "Geometry Control File", comment := "", absPath := "/p2",
            fileNameAndExtension := "p2.tgc" }) :=
  C7_theorem
    { TYPE := "tcf", hex_hash := "mf", parent_hash := "pf"
      contents :=
        [(LineType.COMMENT, Payload.comment "! a comment"),
         (LineType.SCENARIO_TAG, Payload.scenarioRef "s1"),
         (LineType.GIS, Payload.part
           { hex_hash := "h1", category := "gis", isTuflowFile := true,
             child_hash := none, printable := "P1", extension := "shp",
             command := "Read GIS", comment := "", absPath := "/p1",
             fileNameAndExtension := "p1.shp" }),
         (LineType.MODEL, Payload.part
           { hex_hash := "h2", category := "tgc", isTuflowFile := true,
             child_hash := none, printable := "P2", extension := "tgc",
             command := "Geometry Control File", comment := "", absPath := "/p2",
             fileNameAndExtension := "p2.tgc" })]
      scenarios := [] } "h2" (by decide)

/-! ### C8: getFiles filtering -/

/-- The filter loop of `getFiles`, as a `filterMap`: an entry is kept
exactly when it bears a `TuflowFile`, its tag equals the type filter (when
one is given), it is not `RESULT`-tagged (when results are excluded) and
its extension is listed (when the extension list is non-empty). -/
theorem getFiles_fold (file_type : Option LineType) (extensions : List String)
    (include_results : Bool) (cs : List (LineType × Payload)) :
    ∀ (init : List FilePart),
      cs.foldl (fun out c =>
          match c.2 with
          | Payload.part f =>
            if f.isTuflowFile = true then
              if ¬ file_type = none ∧ ¬ some c.1 = file_type then out
              else if ¬ include_results = true ∧ c.1 = LineType.RESULT then out
              else if ¬ extensions = [] ∧ ¬ f.extension ∈ extensions then out
              else out ++ [f]
            else out
          | _ => out) init
        = init ++ cs.filterMap (fun c =>
            match c.2 with
            | Payload.part f =>
              if f.isTuflowFile = true ∧ (file_type = none ∨ some c.1 = file_type)
                  ∧ (include_results = true ∨ ¬ c.1 = LineType.RESULT)
                  ∧ (extensions = [] ∨ f.extension ∈ extensions)
              then some f else none
            | _ => none) := by
  induction cs with
  | nil => intro init; simp
  | cons c cs ih =>
    intro init
    obtain ⟨lt, pl⟩ := c
    rw [List.foldl_cons, List.filterMap_cons]
    cases pl with
    | comment t => exact ih init
    | scenarioRef h => exact ih init
    | part f =>
      dsimp only
      by_cases hT : f.isTuflowFile = true
      · rw [if_pos hT]
        by_cases hA : ¬ file_type = none ∧ ¬ some lt = file_type
        · rw [if_pos hA, if_neg (fun hD => hD.2.1.elim hA.1 (fun h => hA.2 h))]
          exact ih init
        · rw [if_neg hA]
          by_cases hB : ¬ include_results = true ∧ lt = LineType.RESULT
          · rw [if_pos hB, if_neg (fun hD => hD.2.2.1.elim hB.1 (fun h => h hB.2))]
            exact ih init
          · rw [if_neg hB]
            by_cases hC : ¬ extensions = [] ∧ ¬ f.extension ∈ extensions
            · rw [if_pos hC, if_neg (fun hD => hD.2.2.2.elim hC.1 (fun h => hC.2 h))]
              exact ih init
            · rw [if_neg hC]
              have hD2 : file_type = none ∨ some lt = file_type := by tauto
              have hD3 : include_results = true ∨ ¬ lt = LineType.RESULT := by tauto
              have hD4 : extensions = [] ∨ f.extension ∈ extensions := by tauto
              rw [if_pos ⟨hT, hD2, hD3, hD4⟩, ih (init ++ [f])]
              simp [List.append_assoc]
      · rw [if_neg hT, if_neg (fun hD => hT hD.1)]
        exact ih init

/-- C8: `getFiles` keeps, in original entry order, exactly the
`TuflowFile`-bearing entries passing the three optional filters; omitted
type filter and empty extension list mean no filtering, and non-part
(comment/marker) entries never appear. -/
theorem C8_theorem (m : TuflowModelFile) (file_type : Option LineType)
    (extensions : List String) (include_results : Bool) :
    getFiles m file_type extensions include_results
      = m.contents.filterMap (fun c =>
          match c.2 with
          | Payload.part f =>
            if f.isTuflowFile = true ∧ (file_type = none ∨ some c.1 = file_type)
                ∧ (include_results = true ∨ ¬ c.1 = LineType.RESULT)
                ∧ (extensions = [] ∨ f.extension ∈ extensions)
            then some f else none
          | _ => none) := by
  unfold getFiles
  rw [getFiles_fold]
  rw [List.nil_append]

/-! ### C9: existence testing -/

/-- The collection loop of `testExists`, as a `filterMap`. -/
theorem testExists_fold (osExists : String → Bool) (normpath : String → String)
    (cs : List (LineType × Payload)) :
    ∀ (init : List (String × String)),
      cs.foldl (fun failed c =>
          match c.2 with
          | Payload.part f =>
            if f.isTuflowFile = true then
              if c.1 = LineType.RESULT then failed
              else if osExists f.absPath then failed
              else failed ++ [(f.fileNameAndExtension, normpath f.absPath)]
            else failed
          | _ => failed) init
        = init ++ cs.filterMap (fun c =>
            match c.2 with
            | Payload.part f =>
              if f.isTuflowFile = true ∧ ¬ c.1 = LineType.RESULT ∧ ¬ osExists f.absPath = true
              then some (f.fileNameAndExtension, normpath f.absPath) else none
            | _ => none) := by
  induction cs with
  | nil => intro init; simp
  | cons c cs ih =>
    intro init
    obtain ⟨lt, pl⟩ := c
    rw [List.foldl_cons, List.filterMap_cons]
    cases pl with
    | comment t => exact ih init
    | scenarioRef h => exact ih init
    | part f =>
      dsimp only
      by_cases hT : f.isTuflowFile = true
      · rw [if_pos hT]
        by_cases hres : lt = LineType.RESULT
        · rw [if_pos hres, if_neg (fun hD => hD.2.1 hres)]
          exact ih init
        · rw [if_neg hres]
          by_cases hex : osExists f.absPath = true
          · rw [if_pos hex, if_neg (fun hD => hD.2.2 hex)]
            exact ih init
          · rw [if_neg hex,
              if_pos (⟨hT, hres, hex⟩ :
                f.isTuflowFile = true ∧ ¬ lt = LineType.RESULT ∧ ¬ osExists f.absPath = true),
              ih (init ++ [(f.fileNameAndExtension, normpath f.absPath)])]
            simp [List.append_assoc]
      · rw [if_neg hT, if_neg (fun hD => hT hD.1)]
        exact ih init

/-- C9: for every behaviour of the existence oracle and path normalizer,
`testExists` returns (as data, never failing) one
`(fileNameAndExtension, normalized path)` pair, in entry order, for each
`TuflowFile`-bearing entry not tagged `RESULT` whose absolute path the
oracle rejects; `RESULT`-tagged entries never contribute, whatever the
oracle answers. -/
theorem C9_theorem (m : TuflowModelFile) (osExists : String → Bool)
    (normpath : String → String) :
    testExists m osExists normpath
      = m.contents.filterMap (fun c =>
          match c.2 with
          | Payload.part f =>
            if f.isTuflowFile = true ∧ ¬ c.1 = LineType.RESULT ∧ ¬ osExists f.absPath = true
            then some (f.fileNameAndExtension, normpath f.absPath) else none
          | _ => none) := by
  unfold testExists
  rw [testExists_fold]
  rw [List.nil_append]

/-! ### C3: one output line per entry -/

/-- Structural description of a well-formed entry run, used to state the
one-line-per-entry property: a comment line, a scenario opening or closing
marker, a single file part (plain or auto-companion), or a piped chain
group (head plus its consecutive continuations). -/
inductive RenderItem where
| commentLine (s : String)
| scenOpen (hex : String)
| scenClose (hex : String)
| filePart (f : FilePart)
| chainGroup (head : FilePart) (conts : List FilePart)
deriving DecidableEq, Repr

/-- The entries a render item occupies in the entry sequence. -/
def entriesOf : RenderItem → List (LineType × Payload)
| RenderItem.commentLine s => [(LineType.COMMENT, Payload.comment s)]
| RenderItem.scenOpen h => [(LineType.SCENARIO_TAG, Payload.scenarioRef h)]
| RenderItem.scenClose h => [(LineType.SCENARIO_END, Payload.scenarioRef h)]
| RenderItem.filePart f => [(LineType.GIS, Payload.part f)]
| RenderItem.chainGroup h conts =>
  (LineType.GIS, Payload.part h) :: conts.map (fun g => (LineType.GIS, Payload.part g))

/-- Concatenated entries of an item run. -/
def itemsToEntries : List RenderItem → List (LineType × Payload)
| [] => []
| it :: its => entriesOf it ++ itemsToEntries its

/-- Well-formedness of one item: a lone file part participates in no chain
unless it is an auto-companion (whose chain path is never taken), and a
chain group has a linking, chain-capable, non-auto-companion head and a
well-shaped continuation run. -/
def wfItem : RenderItem → Bool
| RenderItem.filePart f =>
  decide (f.category = "ecf") || !(f.isTuflowFile && f.child_hash.isSome)
| RenderItem.chainGroup h conts =>
  decide (¬ h.category = "ecf") && h.isTuflowFile && h.child_hash.isSome && chainShape conts
| _ => true

/-- The state a structural rendering pass threads: open-block stack,
pending-block queue and the indent counter. -/
structure ItemState where
  stack : List ScenarioBlock
  queue : List ScenarioBlock
  indent_spacing : Int
deriving Repr

/-- The lines one item contributes, with the state it leaves behind;
`none` models the failure cases (exhausted queue, empty stack, a block
with no values). -/
def itemLines (auto : Bool) (st : ItemState) : RenderItem → Option (List String × ItemState)
| RenderItem.commentLine s => some ([s], st)
| RenderItem.scenOpen _ =>
  match st.queue with
  | [] => none
  | s :: q =>
    match ScenarioBlock.getOpeningStatement s with
    | Except.error _ => none
    | Except.ok op =>
      some ([mkIndent st.indent_spacing ++ op],
        { stack := s :: st.stack, queue := q,
          indent_spacing := st.indent_spacing + 4 })
| RenderItem.scenClose _ =>
  match st.stack with
  | [] => none
  | s :: stk =>
    some ([mkIndent (st.indent_spacing - 4) ++ ScenarioBlock.getClosingStatement s],
      { stack := stk, queue := st.queue, indent_spacing := st.indent_spacing - 4 })
| RenderItem.filePart f =>
  if f.category = "ecf" then
    some ((if auto then
        [mkIndent st.indent_spacing ++ String.intercalate " " [f.command, "Auto !", f.comment]]
      else []), st)
  else
    some ([mkIndent st.indent_spacing ++ f.printable ++ "\n"], st)
| RenderItem.chainGroup h conts =>
  some ([mkIndent st.indent_spacing ++
      String.intercalate " | " ([h.printable] ++ conts.map FilePart.printable) ++ "\n"], st)

/-- Structural rendering of an item run: each item contributes its lines,
in item order. -/
def renderItems (auto : Bool) : List RenderItem → ItemState → Option (List String)
| [], _ => some []
| it :: its, st =>
  (itemLines auto st it).bind (fun p => (renderItems auto its p.2).map (fun L2 => p.1 ++ L2))

/-- Number of chain-continuation entries in an item run. -/
def numConts : List RenderItem → Nat
| [] => 0
| RenderItem.chainGroup _ conts :: its => conts.length + numConts its
| _ :: its => numConts its

/-- Number of auto-companion (`ecf`) single-part entries in an item run. -/
def numEcf : List RenderItem → Nat
| [] => 0
| RenderItem.filePart f :: its => (if f.category = "ecf" then 1 else 0) + numEcf its
| _ :: its => numEcf its

/-- Membership of an offset in `List.range'`. -/
theorem mem_range'_of_lt (s n k : Nat) (hk : k < n) : s + k ∈ List.range' s n := by
  induction n generalizing s k with
  | zero => exact absurd hk (Nat.not_lt_zero k)
  | succ n ihn =>
    rw [List.range'_succ]
    cases k with
    | zero => exact List.mem_cons_self _ _
    | succ k =>
      have : (s + 1) + k ∈ List.range' (s + 1) n := ihn (s + 1) k (Nat.lt_of_succ_lt_succ hk)
      exact List.mem_cons_of_mem _ (by simpa [Nat.add_assoc, Nat.add_comm 1 k] using this)

/-- Bounds of the members of `List.range'`. -/
theorem lt_of_mem_range' (s n j : Nat) : j ∈ List.range' s n → j < s + n := by
  induction n generalizing s with
  | zero => intro h; simp [List.range'] at h
  | succ n ihn =>
    intro h
    rw [List.range'_succ] at h
    rcases List.mem_cons.mp h with h1 | h1
    · omega
    · have := ihn (s + 1) h1
      omega

/-- The structural per-item rendering agrees with the positional render
loop of `getPrintableContents` on every well-formed item run: walking the
items' entries from index `i` in a state whose recorded skip indices all
lie before `i` and whose indent string matches the indent counter appends
exactly the items' lines. -/
theorem renderItems_renderLoop (auto : Bool) :
    ∀ (items : List RenderItem) (i : Nat) (st : RenderState) (L : List String),
      (∀ it ∈ items, wfItem it = true) →
      (∀ j ∈ st.skips, j < i) →
      st.indent = mkIndent st.indent_spacing →
      renderItems auto items ⟨st.stack, st.queue, st.indent_spacing⟩ = some L →
      renderLoop auto (itemsToEntries items) i st = Except.ok (st.output ++ L) := by
  intro items
  induction items with
  | nil =>
    intro i st L _ _ _ hR
    simp only [renderItems, Option.some.injEq] at hR
    subst hR
    simp [itemsToEntries, renderLoop_nil]
  | cons it its ih =>
    intro i st L hwf hsk hinv hR
    have hwftail : ∀ jt ∈ its, wfItem jt = true :=
      fun jt hjt => hwf jt (List.mem_cons_of_mem _ hjt)
    have hni : ¬ i ∈ st.skips := fun hm => absurd (hsk i hm) (lt_irrefl i)
    have hskS : ∀ j ∈ st.skips, j < i + 1 := fun j hj => Nat.lt_succ_of_lt (hsk j hj)
    cases it with
    | commentLine s =>
      simp only [renderItems, itemLines, Option.some_bind] at hR
      obtain ⟨L2, hL2, rfl⟩ := Option.map_eq_some'.mp hR
      rw [show itemsToEntries (RenderItem.commentLine s :: its)
          = (LineType.COMMENT, Payload.comment s) :: itemsToEntries its from rfl]
      rw [renderLoop_comment auto s _ i st hni]
      rw [ih (i + 1)
        { output := st.output ++ [s], skips := st.skips, stack := st.stack,
          indent_spacing := st.indent_spacing, indent := st.indent, queue := st.queue }
        L2 hwftail hskS hinv hL2]
      simp [List.append_assoc]
    | scenOpen hx =>
      cases hq : st.queue with
      | nil => simp [renderItems, itemLines, hq] at hR
      | cons s q =>
        cases hop : ScenarioBlock.getOpeningStatement s with
        | error e => simp [renderItems, itemLines, hq, hop] at hR
        | ok op =>
          simp only [renderItems, itemLines, hq, hop, Option.some_bind] at hR
          obtain ⟨L2, hL2, rfl⟩ := Option.map_eq_some'.mp hR
          rw [show itemsToEntries (RenderItem.scenOpen hx :: its)
              = (LineType.SCENARIO_TAG, Payload.scenarioRef hx) :: itemsToEntries its from rfl]
          rw [renderLoop_scen auto _ _ i st s q op hni hq hop]
          rw [ih (i + 1)
            { output := st.output ++ [st.indent ++ op], skips := st.skips,
              stack := s :: st.stack, indent_spacing := st.indent_spacing + 4,
              indent := mkIndent (st.indent_spacing + 4), queue := q }
            L2 hwftail hskS rfl hL2]
          simp [hinv, List.append_assoc]
    | scenClose hx =>
      cases hstk : st.stack with
      | nil => simp [renderItems, itemLines, hstk] at hR
      | cons s stk =>
        simp only [renderItems, itemLines, hstk, Option.some_bind] at hR
        obtain ⟨L2, hL2, rfl⟩ := Option.map_eq_some'.mp hR
        rw [show itemsToEntries (RenderItem.scenClose hx :: its)
            = (LineType.SCENARIO_END, Payload.scenarioRef hx) :: itemsToEntries its from rfl]
        rw [renderLoop_scenEnd auto _ _ i st s stk hni hstk]
        rw [ih (i + 1)
          { output := st.output ++
              [mkIndent (st.indent_spacing - 4) ++ ScenarioBlock.getClosingStatement s],
            skips := st.skips, stack := stk, indent_spacing := st.indent_spacing - 4,
            indent := mkIndent (st.indent_spacing - 4), queue := st.queue }
          L2 hwftail hskS rfl hL2]
        simp [List.append_assoc]
    | filePart f =>
      have hwf0 := hwf _ (List.mem_cons_self _ _)
      by_cases hecf : f.category = "ecf"
      · simp only [renderItems, itemLines, if_pos hecf, Option.some_bind] at hR
        obtain ⟨L2, hL2, rfl⟩ := Option.map_eq_some'.mp hR
        rw [show itemsToEntries (RenderItem.filePart f :: its)
            = (LineType.GIS, Payload.part f) :: itemsToEntries its from rfl]
        rw [renderLoop_ecf auto LineType.GIS f _ i st hni (by decide) (by decide)
          (by decide) hecf]
        cases auto with
        | true =>
          rw [if_pos rfl]
          rw [ih (i + 1)
            { output := st.output ++
                [st.indent ++ String.intercalate " " [f.command, "Auto !", f.comment]],
              skips := st.skips, stack := st.stack, indent_spacing := st.indent_spacing,
              indent := st.indent, queue := st.queue }
            L2 hwftail hskS hinv hL2]
          simp [hinv, List.append_assoc]
        | false =>
          rw [if_neg (by decide)]
          rw [ih (i + 1) st L2 hwftail hskS hinv hL2]
          simp
      · have hplain : ¬ (f.isTuflowFile = true ∧ ¬ f.child_hash = none) := by
          simp only [wfItem, Bool.or_eq_true, decide_eq_true_eq] at hwf0
          rcases hwf0 with h | h
          · exact absurd h hecf
          · rintro ⟨h1, h2⟩
            cases hco : f.child_hash with
            | none => exact h2 hco
            | some c => rw [Bool.not_eq_true'] at h; simp [h1, hco] at h
        simp only [renderItems, itemLines, if_neg hecf, Option.some_bind] at hR
        obtain ⟨L2, hL2, rfl⟩ := Option.map_eq_some'.mp hR
        rw [show itemsToEntries (RenderItem.filePart f :: its)
            = (LineType.GIS, Payload.part f) :: itemsToEntries its from rfl]
        rw [renderLoop_plain auto LineType.GIS f _ i st hni (by decide) (by decide)
          (by decide) hecf hplain]
        rw [ih (i + 1)
          { output := st.output ++ [st.indent ++ f.printable ++ "\n"], skips := st.skips,
            stack := st.stack, indent_spacing := st.indent_spacing, indent := st.indent,
            queue := st.queue }
          L2 hwftail hskS hinv hL2]
        simp [hinv, List.append_assoc]
    | chainGroup h conts =>
      have hwf0 := hwf _ (List.mem_cons_self _ _)
      simp only [wfItem, Bool.and_eq_true, decide_eq_true_eq] at hwf0
      obtain ⟨⟨⟨hhc, hT⟩, hsome⟩, hshape⟩ := hwf0
      have hchne : ¬ h.child_hash = none := by
        cases hco : h.child_hash with
        | none => rw [hco] at hsome; simp at hsome
        | some c => simp
      simp only [renderItems, itemLines, Option.some_bind] at hR
      obtain ⟨L2, hL2, rfl⟩ := Option.map_eq_some'.mp hR
      rw [show itemsToEntries (RenderItem.chainGroup h conts :: its)
          = (LineType.GIS, Payload.part h) ::
            (conts.map (fun g => (LineType.GIS, Payload.part g)) ++ itemsToEntries its)
          from rfl]
      have hfp : getPrintableFilepart h st.indent i
          (conts.map (fun g => (LineType.GIS, Payload.part g)) ++ itemsToEntries its) st.skips
          = Except.ok
              (st.indent ++
                String.intercalate " | " ([h.printable] ++ conts.map FilePart.printable) ++ "\n",
               st.skips ++ List.range' (i + 1) conts.length) := by
        rw [getPrintableFilepart, if_pos ⟨hT, hchne⟩]
        exact chainFollow_run st.indent conts _ h (i + 1) [h.printable] st.skips hchne hshape
      rw [renderLoop_filepart auto LineType.GIS h _ i st _ _ hni (by decide) (by decide)
        (by decide) hhc hfp]
      rw [renderLoop_skip_run auto (conts.map (fun g => (LineType.GIS, Payload.part g)))
        (itemsToEntries its) (i + 1)
        { output := st.output ++
            [st.indent ++
              String.intercalate " | " ([h.printable] ++ conts.map FilePart.printable) ++ "\n"],
          skips := st.skips ++ List.range' (i + 1) conts.length, stack := st.stack,
          indent_spacing := st.indent_spacing, indent := st.indent, queue := st.queue }
        (fun k hk => List.mem_append.mpr
          (Or.inr (mem_range'_of_lt (i + 1) conts.length k (by simpa using hk))))]
      rw [ih ((i + 1) + (conts.map (fun g => (LineType.GIS, Payload.part g))).length)
        { output := st.output ++
            [st.indent ++
              String.intercalate " | " ([h.printable] ++ conts.map FilePart.printable) ++ "\n"],
          skips := st.skips ++ List.range' (i + 1) conts.length, stack := st.stack,
          indent_spacing := st.indent_spacing, indent := st.indent, queue := st.queue }
        L2 hwftail
        (fun j hj => by
          rcases List.mem_append.mp hj with h1 | h1
          · have := hsk j h1
            simp only [List.length_map]
            omega
          · have := lt_of_mem_range' (i + 1) conts.length j h1
            simp only [List.length_map]
            omega)
        hinv hL2]
      simp [hinv, List.append_assoc]

/-- Line counting for the structural rendering: each item contributes one
line, except a chain group (one line for `1 + conts.length` entries) and an
auto-companion part with the toggle off (no line). -/
theorem renderItems_length (auto : Bool) :
    ∀ (items : List RenderItem) (st : ItemState) (L : List String),
      renderItems auto items st = some L →
      L.length + numConts items + (if auto = true then 0 else numEcf items)
        = (itemsToEntries items).length := by
  intro items
  induction items with
  | nil =>
    intro st L hR
    simp only [renderItems, Option.some.injEq] at hR
    subst hR
    cases auto <;> simp [numConts, numEcf, itemsToEntries]
  | cons it its ih =>
    intro st L hR
    cases it with
    | commentLine s =>
      simp only [renderItems, itemLines, Option.some_bind] at hR
      obtain ⟨L2, hL2, rfl⟩ := Option.map_eq_some'.mp hR
      have ihe := ih _ L2 hL2
      cases auto <;> simp [numConts, numEcf, itemsToEntries, entriesOf] at ihe ⊢ <;> omega
    | scenOpen hx =>
      cases hq : st.queue with
      | nil => simp [renderItems, itemLines, hq] at hR
      | cons s q =>
        cases hop : ScenarioBlock.getOpeningStatement s with
        | error e => simp [renderItems, itemLines, hq, hop] at hR
        | ok op =>
          simp only [renderItems, itemLines, hq, hop, Option.some_bind] at hR
          obtain ⟨L2, hL2, rfl⟩ := Option.map_eq_some'.mp hR
          have ihe := ih _ L2 hL2
          cases auto <;> simp [numConts, numEcf, itemsToEntries, entriesOf] at ihe ⊢ <;> omega
    | scenClose hx =>
      cases hstk : st.stack with
      | nil => simp [renderItems, itemLines, hstk] at hR
      | cons s stk =>
        simp only [renderItems, itemLines, hstk, Option.some_bind] at hR
        obtain ⟨L2, hL2, rfl⟩ := Option.map_eq_some'.mp hR
        have ihe := ih _ L2 hL2
        cases auto <;> simp [numConts, numEcf, itemsToEntries, entriesOf] at ihe ⊢ <;> omega
    | filePart f =>
      by_cases hecf : f.category = "ecf"
      · simp only [renderItems, itemLines, if_pos hecf, Option.some_bind] at hR
        obtain ⟨L2, hL2, rfl⟩ := Option.map_eq_some'.mp hR
        have ihe := ih _ L2 hL2
        cases auto <;>
          simp [numConts, numEcf, itemsToEntries, entriesOf, hecf] at ihe ⊢ <;> omega
      · simp only [renderItems, itemLines, if_neg hecf, Option.some_bind] at hR
        obtain ⟨L2, hL2, rfl⟩ := Option.map_eq_some'.mp hR
        have ihe := ih _ L2 hL2
        cases auto <;>
          simp [numConts, numEcf, itemsToEntries, entriesOf, hecf] at ihe ⊢ <;> omega
    | chainGroup h conts =>
      simp only [renderItems, itemLines, Option.some_bind] at hR
      obtain ⟨L2, hL2, rfl⟩ := Option.map_eq_some'.mp hR
      have ihe := ih _ L2 hL2
      cases auto <;>
        simp [numConts, numEcf, itemsToEntries, entriesOf, List.length_map] at ihe ⊢ <;> omega

/-- C3 (amended): on every well-formed model — entries decomposable into
comments, matched scenario markers, single file parts and consecutive
piped-chain groups, with the scenario queue and stack never exhausted —
`getPrintableContents` emits the items' lines in original relative order
(the structural rendering `renderItems`), and the number of emitted lines
is the number of entries minus the chain-continuation entries consumed
minus the `ecf` (auto-companion) entries suppressed when the auto toggle is
off. -/
theorem C3_theorem (items : List RenderItem) (scens : List ScenarioBlock) (auto : Bool)
    (L : List String)
    (h1 : ∀ it ∈ items, wfItem it = true)
    (h2 : renderItems auto items ⟨[], sortScenarios scens, 0⟩ = some L) :
    getPrintableContents
      { TYPE := "tcf", hex_hash := "mf", parent_hash := "pf"
        contents := itemsToEntries items, scenarios := scens } auto
      = Except.ok L
    ∧ L.length + numConts items + (if auto = true then 0 else numEcf items)
        = (itemsToEntries items).length := by
  constructor
  · have hrl := renderItems_renderLoop auto items 0
      { output := [], skips := [], stack := [], indent_spacing := 0, indent := "",
        queue := sortScenarios scens } L h1 (by simp) rfl h2
    simpa [getPrintableContents] using hrl
  · exact renderItems_length auto items _ L h2

/-- Chain head used by the C3 witness. -/
def pC3A : FilePart :=
  { hex_hash := "hA", category := "gis", isTuflowFile := true, child_hash := some "hB",
    printable := "A", extension := "shp", command := "Read GIS", comment := "",
    absPath := "/a", fileNameAndExtension := "a.shp" }

/-- Chain continuation used by the C3 witness. -/
def pC3B : FilePart :=
  { hex_hash := "hB", category := "gis", isTuflowFile := true, child_hash := none,
    printable := "B", extension := "shp", command := "Read GIS", comment := "",
    absPath := "/b", fileNameAndExtension := "b.shp" }

/-- Auto-companion (`ecf`) part used by the C3 witness and counterexample. -/
def pC3E : FilePart :=
  { hex_hash := "hE", category := "ecf", isTuflowFile := true, child_hash := none,
    printable := "E", extension := "ecf", command := "Estry Control File",
    comment := "cm", absPath := "/e", fileNameAndExtension := "e.ecf" }

/-- Plain part used by the C3 witness. -/
def pC3P : FilePart :=
  { hex_hash := "hP", category := "gis", isTuflowFile := true, child_hash := none,
    printable := "P", extension := "shp", command := "Read GIS", comment := "",
    absPath := "/p", fileNameAndExtension := "p.shp" }

/-- Scenario block used by the C3 witness. -/
def blockC3 : ScenarioBlock :=
  { order := 0, if_type := ScenarioBlock.IF, hex_hash := "s1", values := ["1"],
    part_list := [], comment := "", comment_char := "!", has_endif := true }

/-- Item run used by the C3 witness: a comment, a scenario group holding an
`ecf` part and a two-part chain, and a trailing plain part. -/
def itemsC3 : List RenderItem :=
  [RenderItem.commentLine "! hello", RenderItem.scenOpen "s1", RenderItem.filePart pC3E,
   RenderItem.chainGroup pC3A [pC3B], RenderItem.scenClose "s1", RenderItem.filePart pC3P]

/-- C3 witness: the amended theorem applied at a concrete well-formed run,
auto toggle off: 5 lines for 7 entries (one chain continuation consumed,
one `ecf` entry suppressed). -/
theorem C3_witness :
    getPrintableContents
      { TYPE := "tcf", hex_hash := "mf", parent_hash := "pf"
        contents := itemsToEntries itemsC3, scenarios := [blockC3] } false
      = Except.ok ["! hello", "IF SCENARIO == 1", "    A | B\n", "END IF", "P\n"]
    ∧ (["! hello", "IF SCENARIO == 1", "    A | B\n", "END IF", "P\n"] : List String).length
        + numConts itemsC3 + (if false = true then 0 else numEcf itemsC3)
        = (itemsToEntries itemsC3).length :=
  C3_theorem itemsC3 [blockC3] false
    ["! hello", "IF SCENARIO == 1", "    A | B\n", "END IF", "P\n"]
    (by decide) (by decide)

/-- C3 counterexample: a model holding a single `ecf` entry (no chain
continuations anywhere) emits zero lines with the auto toggle off, not one
line per stored entry as the claim states. -/
theorem C3_counterexample :
    getPrintableContents
      { TYPE := "tcf", hex_hash := "mf", parent_hash := "pf"
        contents := [(LineType.MODEL, Payload.part pC3E)], scenarios := [] } false
      = Except.ok []
    ∧ ¬ ([] : List String).length
        = ([(LineType.MODEL, Payload.part pC3E)] : List (LineType × Payload)).length := by
  constructor
  · rfl
  · decide
